import Mathlib

/-!
# temporal-server: the game state machine, the event handler and the room registry

A shallow embedding of `src/server.js`:

* `defaultState`, `pathForArtifact`, `applyEvent` (the game logic),
* `getState`, `saveState`, `logEvent`, `broadcast` and the handler of
  `POST /sessions/:id/events` (`postSessionEvent`),
* the `rooms` map with the `connection` and `close` handlers of the socket server.

Modelling conventions.

* A JavaScript value that may be `undefined` is an `Option`, `none` being `undefined`
  (for `artifact` and `last_event`, whose absent value in the source is `null`, `none` is `null`).
* `Date.now()` is not a function of the program state: every reading of the clock is an explicit
  argument of the function that reads it.
* `applyEvent` mutates its argument and may throw afterwards; `Outcome` therefore carries the
  state of the argument object in both cases.
* Numbers held in a state document (`sequence_index`, the `stage` counters) are modelled by `Int`;
  the documents the program builds only hold small integers there.
* JSON numbers of a payload are modelled by `Int`.
-/

namespace TemporalServer

/-! ## JSON values -/

/-- A JSON value, as produced by `JSON.parse` (objects are lists of key/value pairs). -/
inductive JVal where
  | null
  | bool (b : Bool)
  | num (n : Int)
  | str (s : String)
  | arr (xs : List JVal)
  | obj (kvs : List (String × JVal))

/-- JavaScript truthiness of a JSON value. -/
def truthy : JVal → Bool
  | .null => false
  | .bool b => b
  | .num n => n != 0
  | .str s => s != ""
  | .arr _ => true
  | .obj _ => true

/-- Lookup of a key in the key/value pairs of an object. -/
def lookupKey (key : String) : List (String × JVal) → Option JVal
  | [] => none
  | (k, v) :: rest => if k = key then some v else lookupKey key rest

/-- Property read `v.key` (also the destructuring `const { key } = v`) for the keys the program
reads (`artifact`, `message`): `none` when the base is `null` (JavaScript throws a `TypeError`),
`some none` when the property is `undefined`. -/
def getProp (v : JVal) (key : String) : Option (Option JVal) :=
  match v with
  | .null => none
  | .obj kvs => some (lookupKey key kvs)
  | _ => some none

/-- The operand rule of `payload || {}` in the handler: a missing or falsy payload becomes `{}`. -/
def orEmptyObject : Option JVal → JVal
  | some p => if truthy p then p else .obj []
  | none => .obj []

/-! ## The state document -/

/-- Sub-state `puzzles.pr`: `last_obs_scene` is absent until `OBS_SWITCH_SCENE2`. -/
structure PrPuzzle where
  stage : Int
  last_obs_scene : Option String

/-- An inbox entry `{ id, message }`. -/
structure InboxEntry where
  id : String
  message : JVal

/-- Sub-state `puzzles.pa`. -/
structure PaPuzzle where
  stage : Int
  inbox : List InboxEntry

/-- Sub-state `puzzles.f`. -/
structure FPuzzle where
  stage : Int

/-- The `puzzles` object. -/
structure Puzzles where
  pr : PrPuzzle
  pa : PaPuzzle
  f : FPuzzle

/-- The `last_event` object `{ type, payload, ts }`. -/
structure LastEvent where
  type : String
  payload : JVal
  ts : Nat

/-- The state document of a session. -/
structure State where
  artifact : Option String
  path : List String
  sequence_index : Int
  timeline_open : Option String
  puzzles : Puzzles
  last_event : Option LastEvent

/-- `defaultState()`. -/
def defaultState : State :=
  { artifact := none
    path := []
    sequence_index := 0
    timeline_open := some "PR"
    puzzles :=
      { pr := { stage := 0, last_obs_scene := none }
        pa := { stage := 0, inbox := [] }
        f := { stage := 0 } }
    last_event := none }

/-! ## Game logic -/

/-- `pathForArtifact(artifact)`. -/
def pathForArtifact (artifact : String) : List String :=
  if artifact = "watch" then ["PR", "PA", "PR", "F", "PR", "PA", "F"]
  else if artifact = "compass" then ["PR", "F", "PR", "PA", "PR", "F", "PA"]
  else if artifact = "letter" then ["PR", "PA", "F", "PR", "F", "PA", "PR"]
  else ["PR"]

/-- Array read `path[i]` for a number `i`: `undefined` unless `i` is an index of the array. -/
def jsIndex (path : List String) (i : Int) : Option String :=
  if 0 ≤ i then path[i.toNat]? else none

/-- The test `["watch","compass","letter"].includes(artifact)`: the artifact as a string when the
test succeeds, `none` when it fails. -/
def includedArtifact : Option JVal → Option String
  | some (.str s) => if s = "watch" ∨ s = "compass" ∨ s = "letter" then some s else none
  | _ => none

/-- The expression `state.path[0] || "PR"`. -/
def firstOrPR (path : List String) : String :=
  match jsIndex path 0 with
  | some t => if t = "" then "PR" else t
  | none => "PR"

/-- The expression `payload.message || "Message from the future…"`. -/
def messageOrPlaceholder : Option JVal → JVal
  | some m => if truthy m then m else .str "Message from the future…"
  | none => .str "Message from the future…"

/-- What a call of `applyEvent` does: it returns the (mutated) argument, or throws and leaves the
argument object in the given state. -/
inductive Outcome where
  | returned (state : State)
  | threw (message : String) (state : State)

/-- `applyEvent(state, type, payload)`; `t0` is the clock reading of `last_event.ts`, `t1` the one
of the inbox entry id. -/
def applyEvent (t0 t1 : Nat) (state : State) (type : String) (payload : JVal) : Outcome :=
  let state := { state with last_event := some { type := type, payload := payload, ts := t0 } }
  if type = "ARTIFACT_SELECTED" then
    match getProp payload "artifact" with
    | none => .threw "TypeError" state
    | some artifact =>
      match includedArtifact artifact with
      | none => .threw "Invalid artifact" state
      | some a =>
        let state := { state with artifact := some a }
        let state := { state with path := pathForArtifact a }
        let state := { state with sequence_index := 0 }
        let state := { state with timeline_open := some (firstOrPR state.path) }
        .returned state
  else if type = "PR_SET_NEXT_YEAR" then
    let state := { state with
      sequence_index := min (state.sequence_index + 1) ((state.path.length : Int) - 1) }
    let state := { state with timeline_open := jsIndex state.path state.sequence_index }
    .returned state
  else if type = "PA_ANSWER_CORRECT" then
    let state := { state with
      puzzles := { state.puzzles with pa := { state.puzzles.pa with stage := state.puzzles.pa.stage + 1 } } }
    let state := { state with
      sequence_index := min (state.sequence_index + 1) ((state.path.length : Int) - 1) }
    let state := { state with timeline_open := jsIndex state.path state.sequence_index }
    .returned state
  else if type = "FUTURE_SENT_MESSAGE_TO_PAST" then
    match getProp payload "message" with
    | none => .threw "TypeError" state
    | some message =>
      let msg := messageOrPlaceholder message
      .returned { state with
        puzzles := { state.puzzles with
          pa := { state.puzzles.pa with
            inbox := state.puzzles.pa.inbox ++ [{ id := "msg_" ++ toString t1, message := msg }] } } }
  else if type = "OBS_SWITCH_SCENE2" then
    .returned { state with
      puzzles := { state.puzzles with
        pr := { state.puzzles.pr with last_obs_scene := some "Scene2" } } }
  else
    .returned state

/-- A call of `applyEvent`: the event kind, its payload and the two clock readings. -/
structure Call where
  type : String
  payload : JVal
  t0 : Nat
  t1 : Nat

/-- One call of `applyEvent` that must succeed: `none` when it throws. -/
def stepOk (s : State) (c : Call) : Option State :=
  match applyEvent c.t0 c.t1 s c.type c.payload with
  | .returned s1 => some s1
  | .threw _ _ => none

/-- A sequence of calls of `applyEvent`, each on the document the previous one returned; `none` as
soon as one of them throws. -/
def runCalls : State → List Call → Option State
  | s, [] => some s
  | s, c :: rest =>
    match stepOk s c with
    | some s1 => runCalls s1 rest
    | none => none

/-! ## Storage, rooms and the event handler -/

/-- A row of table `sessions`; `state_json` holds the serialised document, which `JSON.parse`
gives back as the same document. -/
structure SessionRow where
  id : String
  state_json : State
  updated_at : Nat

/-- A row of table `events` (the autoincrement id is the position in the log). -/
structure EventRow where
  session_id : String
  type : String
  payload_json : JVal
  ts : Nat

/-- A message sent on a socket. -/
inductive Frame where
  | hello (sessionId : String) (device : String) (ts : Nat)
  | stateUpdated (state : State)

/-- The map `rooms`: session id to the set of sockets (a socket is a number), both in insertion
order. -/
abbrev Rooms := List (String × List Nat)

/-- Everything the handlers read and write: both tables, the `rooms` map, the sockets whose
`readyState` is `OPEN`, the frames sent so far (socket, frame) and the number of calls of
`hideSoleilInScene3`. -/
structure World where
  sessions : List SessionRow
  events : List EventRow
  rooms : Rooms
  openSockets : List Nat
  sent : List (Nat × Frame)
  actuatorCalls : Nat

/-- `rooms.get(sessionId)`. -/
def roomsGet (sessionId : String) : Rooms → Option (List Nat)
  | [] => none
  | (k, set) :: rest => if k = sessionId then some set else roomsGet sessionId rest

/-- `rooms.has(sessionId)`. -/
def roomsHas (sessionId : String) (rooms : Rooms) : Bool :=
  (roomsGet sessionId rooms).isSome

/-- `rooms.set(sessionId, new Set())` for a key the map does not hold. -/
def roomsSetEmpty (sessionId : String) (rooms : Rooms) : Rooms :=
  rooms ++ [(sessionId, [])]

/-- `set.add(ws)`. -/
def setAdd (ws : Nat) (set : List Nat) : List Nat :=
  if ws ∈ set then set else set ++ [ws]

/-- `set.delete(ws)`. -/
def setDelete (ws : Nat) (set : List Nat) : List Nat :=
  set.filter (fun x => x != ws)

/-- In-place update of the set stored under `sessionId`. -/
def roomsUpdate (sessionId : String) (f : List Nat → List Nat) (rooms : Rooms) : Rooms :=
  rooms.map (fun e => if e.1 = sessionId then (e.1, f e.2) else e)

/-- `rooms.delete(sessionId)`. -/
def roomsDelete (sessionId : String) (rooms : Rooms) : Rooms :=
  rooms.filter (fun e => e.1 != sessionId)

/-- `getState(sessionId)`. -/
def getState (w : World) (sessionId : String) : Option State :=
  (w.sessions.find? (fun r => r.id == sessionId)).map (fun r => r.state_json)

/-- The upsert of `saveState` on the rows of table `sessions`. -/
def upsert (sessionId : String) (state : State) (t : Nat) : List SessionRow → List SessionRow
  | [] => [{ id := sessionId, state_json := state, updated_at := t }]
  | r :: rest =>
    if r.id = sessionId then { id := sessionId, state_json := state, updated_at := t } :: rest
    else r :: upsert sessionId state t rest

/-- `saveState(sessionId, state)`, `t` being the clock reading. -/
def saveState (w : World) (sessionId : String) (state : State) (t : Nat) : World :=
  { w with sessions := upsert sessionId state t w.sessions }

/-- `logEvent(sessionId, type, payload)`, `t` being the clock reading. -/
def logEvent (w : World) (sessionId : String) (type : String) (payload : Option JVal) (t : Nat) :
    World :=
  { w with events := w.events ++
      [{ session_id := sessionId, type := type, payload_json := orEmptyObject payload, ts := t }] }

/-- `broadcast(sessionId, msg)`. -/
def broadcast (w : World) (sessionId : String) (msg : Frame) : World :=
  match roomsGet sessionId w.rooms with
  | none => w
  | some set =>
    { w with sent := w.sent ++ ((set.filter (fun ws => w.openSockets.contains ws)).map
        (fun ws => (ws, msg))) }

/-- The body of a request to `POST /sessions/:id/events`: `type` and `payload`, each possibly
absent. -/
structure Body where
  type : Option String
  payload : Option JVal

/-- The response of the handler. -/
inductive Response where
  | error (status : Nat) (message : String)
  | okState (state : State)

/-- The clock readings of one run of the handler: by `logEvent`, by `applyEvent` (twice) and by
`saveState`. -/
structure Ticks where
  log : Nat
  apply0 : Nat
  apply1 : Nat
  save : Nat

/-- The handler of `POST /sessions/:id/events`. -/
def postSessionEvent (w : World) (c : Ticks) (sessionId : String) (body : Body) :
    Response × World :=
  match getState w sessionId with
  | none => (.error 404 "Session not found", w)
  | some state =>
    match body.type with
    | none => (.error 400 "Missing type", w)
    | some type =>
      if type = "" then (.error 400 "Missing type", w)
      else
        let w1 := logEvent w sessionId type body.payload c.log
        match applyEvent c.apply0 c.apply1 state type (orEmptyObject body.payload) with
        | .threw message _ => (.error 400 message, w1)
        | .returned newState =>
          let w2 := saveState w1 sessionId newState c.save
          let w3 := broadcast w2 sessionId (.stateUpdated newState)
          let w4 := if type = "OBS_SWITCH_SCENE2" then
            { w3 with actuatorCalls := w3.actuatorCalls + 1 } else w3
          (.okState newState, w4)

/-- The `connection` handler of the socket server: `sessionId` and `device` are the query
parameters (absent ones are `none`), `t` the clock reading. A connection without a session id is
closed and registers nothing. -/
def onConnection (w : World) (t : Nat) (ws : Nat) (sessionId : Option String)
    (device : Option String) : World :=
  match sessionId with
  | none => w
  | some sid =>
    if sid = "" then w
    else
      let rooms1 := if roomsHas sid w.rooms then w.rooms else roomsSetEmpty sid w.rooms
      let rooms2 := roomsUpdate sid (setAdd ws) rooms1
      let dev := match device with
        | some d => if d = "" then "unknown" else d
        | none => "unknown"
      let w1 := { w with rooms := rooms2, sent := w.sent ++ [(ws, .hello sid dev t)] }
      match getState w1 sid with
      | some state => { w1 with sent := w1.sent ++ [(ws, .stateUpdated state)] }
      | none => w1

/-- The `close` listener that `onConnection` registers on socket `ws` for session `sessionId`. -/
def onClose (w : World) (ws : Nat) (sessionId : String) : World :=
  match roomsGet sessionId w.rooms with
  | none => w
  | some set =>
    let set1 := setDelete ws set
    let rooms1 := roomsUpdate sessionId (fun _ => set1) w.rooms
    if set1.length = 0 then { w with rooms := roomsDelete sessionId rooms1 }
    else { w with rooms := rooms1 }

/-- An operation on the room registry: a connection, or the close event of a socket whose listener
was registered for `sessionId`. -/
inductive Op where
  | connection (t : Nat) (ws : Nat) (sessionId : Option String) (device : Option String)
  | close (ws : Nat) (sessionId : String)

/-- One registry operation. -/
def stepOp (w : World) : Op → World
  | .connection t ws sessionId device => onConnection w t ws sessionId device
  | .close ws sessionId => onClose w ws sessionId

/-- A sequence of registry operations, in order. -/
def runOps (w : World) (ops : List Op) : World :=
  ops.foldl stepOp w

/-- Spec: the handles of session `sid` "subscribed and not yet unsubscribed" after `ops`: handle
`h` connected with session id `sid` at some point, and no close of `h` for `sid` came later. -/
def SubscribedNotYetUnsubscribed (ops : List Op) (sid : String) (h : Nat) : Prop :=
  ∃ pre post t device, ops = pre ++ Op.connection t h (some sid) device :: post ∧
    Op.close h sid ∉ post

/-- Handle `h` is in the set that `rooms` holds for session `sid`. -/
def InRoom (rooms : Rooms) (sid : String) (h : Nat) : Prop :=
  ∃ set, roomsGet sid rooms = some set ∧ h ∈ set

/-! ## Predicates on state documents -/

/-- A timeline-location token. -/
def IsToken (tok : String) : Prop :=
  tok = "PR" ∨ tok = "PA" ∨ tok = "F"

/-- One of the three artifacts. -/
def IsArtifact (a : String) : Prop :=
  a = "watch" ∨ a = "compass" ∨ a = "letter"

/-- The document has `timeline_open == path[sequence_index]`, the latter being an element of
`path`. -/
def TimelineConsistent (s : State) : Prop :=
  ∃ tok, jsIndex s.path s.sequence_index = some tok ∧ s.timeline_open = some tok

/-- The document of a session whose artifact has been selected: the path is the one of the
artifact, of length 7, the index is within it and `timeline_open` is the token at the index. -/
def Chosen (s : State) : Prop :=
  ∃ a, IsArtifact a ∧ s.artifact = some a ∧ s.path = pathForArtifact a ∧ s.path.length = 7 ∧
    0 ≤ s.sequence_index ∧ s.sequence_index ≤ 6 ∧
    ∃ tok, IsToken tok ∧ jsIndex s.path s.sequence_index = some tok ∧ s.timeline_open = some tok

/-- The document of a session before any artifact is selected: the path is empty, the index is 0
with `timeline_open` "PR", or -1 with `timeline_open` undefined. -/
def Unchosen (s : State) : Prop :=
  s.path = [] ∧ ((s.sequence_index = 0 ∧ s.timeline_open = some "PR") ∨
    (s.sequence_index = -1 ∧ s.timeline_open = none))

/-- The event kinds `applyEvent` has a case for. -/
def IsDeclaredKind (type : String) : Prop :=
  type = "ARTIFACT_SELECTED" ∨ type = "PR_SET_NEXT_YEAR" ∨ type = "PA_ANSWER_CORRECT" ∨
    type = "FUTURE_SENT_MESSAGE_TO_PAST" ∨ type = "OBS_SWITCH_SCENE2"

/-! ## Lemmas on the game logic -/

theorem pathForArtifact_length {a : String} (ha : IsArtifact a) :
    (pathForArtifact a).length = 7 := by
  rcases ha with h | h | h <;> subst h <;> decide

theorem pathForArtifact_tokens {a : String} (ha : IsArtifact a) :
    ∀ tok ∈ pathForArtifact a, IsToken tok := by
  rcases ha with h | h | h <;> subst h <;> simp [pathForArtifact, IsToken]

theorem pathForArtifact_index {a : String} (ha : IsArtifact a) (i : Int) (h0 : 0 ≤ i)
    (h6 : i ≤ 6) : ∃ tok, IsToken tok ∧ jsIndex (pathForArtifact a) i = some tok := by
  rcases ha with h | h | h <;> subst h <;> interval_cases i <;>
    simp [pathForArtifact, jsIndex, IsToken]

theorem includedArtifact_isArtifact {v : Option JVal} {a : String}
    (h : includedArtifact v = some a) : IsArtifact a ∧ v = some (.str a) := by
  unfold includedArtifact at h
  split at h
  · rename_i s
    split at h
    · rename_i hs
      simp only [Option.some.injEq] at h
      subst h
      exact ⟨hs, rfl⟩
    · simp at h
  · simp at h

theorem includedArtifact_of_isArtifact {a : String} (ha : IsArtifact a) :
    includedArtifact (some (.str a)) = some a := by
  unfold includedArtifact
  exact if_pos ha

theorem firstOrPR_pathForArtifact {a : String} (ha : IsArtifact a) :
    firstOrPR (pathForArtifact a) = "PR" ∧ jsIndex (pathForArtifact a) 0 = some "PR" := by
  rcases ha with h | h | h <;> subst h <;> exact ⟨by decide, by decide⟩

/-- What a successful `ARTIFACT_SELECTED` returns. -/
theorem applyEvent_artifact_returned {t0 t1 : Nat} {s s1 : State} {payload : JVal}
    (h : applyEvent t0 t1 s "ARTIFACT_SELECTED" payload = .returned s1) :
    ∃ a, IsArtifact a ∧ getProp payload "artifact" = some (some (.str a)) ∧
      s1 = { artifact := some a, path := pathForArtifact a, sequence_index := 0,
             timeline_open := some "PR", puzzles := s.puzzles,
             last_event := some { type := "ARTIFACT_SELECTED", payload := payload, ts := t0 } } := by
  unfold applyEvent at h
  simp only [if_true] at h
  split at h
  · simp at h
  · rename_i artifact hg
    split at h
    · simp at h
    · rename_i a ha
      obtain ⟨hia, hv⟩ := includedArtifact_isArtifact ha
      refine ⟨a, hia, by rw [hg, hv], ?_⟩
      simp only [Outcome.returned.injEq] at h
      rw [← h, (firstOrPR_pathForArtifact hia).1]

theorem chosen_of_artifact_returned {t0 t1 : Nat} {s s1 : State} {payload : JVal}
    (h : applyEvent t0 t1 s "ARTIFACT_SELECTED" payload = .returned s1) :
    Chosen s1 ∧ s1.sequence_index = 0 := by
  obtain ⟨a, ha, _, rfl⟩ := applyEvent_artifact_returned h
  refine ⟨⟨a, ha, rfl, rfl, pathForArtifact_length ha, le_refl _,
    (by show (0 : Int) ≤ 6; norm_num), "PR",
    Or.inl rfl, (firstOrPR_pathForArtifact ha).2, rfl⟩, rfl⟩

/-- The advance `Math.min(sequence_index + 1, path.length - 1)` keeps a selected session's document
well formed. -/
theorem chosen_advance {s : State} (hc : Chosen s) (pz : Puzzles) (le : Option LastEvent) :
    Chosen { s with
      sequence_index := min (s.sequence_index + 1) ((s.path.length : Int) - 1),
      timeline_open := jsIndex s.path (min (s.sequence_index + 1) ((s.path.length : Int) - 1)),
      puzzles := pz, last_event := le } := by
  obtain ⟨a, ha, hart, hpath, hlen, h0, h6, _⟩ := hc
  have hmin0 : 0 ≤ min (s.sequence_index + 1) ((s.path.length : Int) - 1) := by
    rw [hlen]; exact le_min (by omega) (by norm_num)
  have hmin6 : min (s.sequence_index + 1) ((s.path.length : Int) - 1) ≤ 6 := by
    rw [hlen]; exact le_trans (min_le_right _ _) (by norm_num)
  obtain ⟨tok, htok, hidx⟩ := pathForArtifact_index ha _ hmin0 hmin6
  rw [← hpath] at hidx
  exact ⟨a, ha, hart, hpath, hlen, hmin0, hmin6, tok, htok, hidx, hidx⟩

/-- Every successful call on a selected session's document gives such a document again, and the
index decreases only at `ARTIFACT_SELECTED`, which resets it to 0. -/
theorem chosen_step {t0 t1 : Nat} {s s1 : State} {type : String} {payload : JVal}
    (hc : Chosen s) (h : applyEvent t0 t1 s type payload = .returned s1) :
    Chosen s1 ∧ (s1.sequence_index < s.sequence_index →
      type = "ARTIFACT_SELECTED" ∧ s1.sequence_index = 0) := by
  by_cases h1 : type = "ARTIFACT_SELECTED"
  · subst h1
    obtain ⟨hc1, hz⟩ := chosen_of_artifact_returned h
    exact ⟨hc1, fun _ => ⟨rfl, hz⟩⟩
  · have hmono : s.sequence_index ≤ min (s.sequence_index + 1) ((s.path.length : Int) - 1) := by
      obtain ⟨a, _, _, _, hlen, _, h6, _⟩ := hc
      rw [hlen]; exact le_min (by omega) (by omega)
    unfold applyEvent at h
    simp only [if_neg h1] at h
    split at h
    · simp only [Outcome.returned.injEq] at h
      subst h
      exact ⟨chosen_advance hc _ _, fun hlt => absurd hlt (not_lt.mpr hmono)⟩
    · split at h
      · simp only [Outcome.returned.injEq] at h
        subst h
        exact ⟨chosen_advance hc _ _, fun hlt => absurd hlt (not_lt.mpr hmono)⟩
      · split at h
        · split at h
          · simp at h
          · simp only [Outcome.returned.injEq] at h
            subst h
            exact ⟨hc, fun hlt => absurd hlt (lt_irrefl _)⟩
        · split at h
          · simp only [Outcome.returned.injEq] at h
            subst h
            exact ⟨hc, fun hlt => absurd hlt (lt_irrefl _)⟩
          · simp only [Outcome.returned.injEq] at h
            subst h
            exact ⟨hc, fun hlt => absurd hlt (lt_irrefl _)⟩

theorem unchosen_advance {s : State} (hu : Unchosen s) (pz : Puzzles) (le : Option LastEvent) :
    Unchosen { s with
      sequence_index := min (s.sequence_index + 1) ((s.path.length : Int) - 1),
      timeline_open := jsIndex s.path (min (s.sequence_index + 1) ((s.path.length : Int) - 1)),
      puzzles := pz, last_event := le } := by
  obtain ⟨hp, hs⟩ := hu
  have hmin : min (s.sequence_index + 1) ((s.path.length : Int) - 1) = -1 := by
    rw [hp]
    rcases hs with ⟨h, _⟩ | ⟨h, _⟩ <;> rw [h] <;> decide
  refine ⟨hp, Or.inr ⟨hmin, ?_⟩⟩
  show jsIndex s.path _ = none
  rw [hmin, hp]
  rfl

/-- A successful call on a document without artifact gives a document without artifact or, for
`ARTIFACT_SELECTED`, a selected one. -/
theorem unchosen_step {t0 t1 : Nat} {s s1 : State} {type : String} {payload : JVal}
    (hu : Unchosen s) (h : applyEvent t0 t1 s type payload = .returned s1) :
    Unchosen s1 ∨ Chosen s1 := by
  by_cases h1 : type = "ARTIFACT_SELECTED"
  · subst h1
    exact Or.inr (chosen_of_artifact_returned h).1
  · left
    unfold applyEvent at h
    simp only [if_neg h1] at h
    split at h
    · simp only [Outcome.returned.injEq] at h
      subst h
      exact unchosen_advance hu _ _
    · split at h
      · simp only [Outcome.returned.injEq] at h
        subst h
        exact unchosen_advance hu _ _
      · split at h
        · split at h
          · simp at h
          · simp only [Outcome.returned.injEq] at h
            subst h
            exact hu
        · split at h
          · simp only [Outcome.returned.injEq] at h
            subst h
            exact hu
          · simp only [Outcome.returned.injEq] at h
            subst h
            exact hu

theorem stepOk_eq_some {s s1 : State} {c : Call} (h : stepOk s c = some s1) :
    applyEvent c.t0 c.t1 s c.type c.payload = .returned s1 := by
  unfold stepOk at h
  split at h
  · rename_i s2 heq
    simp only [Option.some.injEq] at h
    rw [heq, h]
  · simp at h

theorem runCalls_cons {s s2 : State} {c : Call} {rest : List Call}
    (h : runCalls s (c :: rest) = some s2) :
    ∃ s1, stepOk s c = some s1 ∧ runCalls s1 rest = some s2 := by
  unfold runCalls at h
  split at h
  · rename_i s1 heq
    exact ⟨s1, heq, h⟩
  · simp at h

theorem defaultState_unchosen : Unchosen defaultState :=
  ⟨rfl, Or.inl ⟨rfl, rfl⟩⟩

/-- Every document reached by successful calls from a document with or without artifact is again
one of the two. -/
theorem runCalls_shape {calls : List Call} {s s2 : State}
    (hs : Unchosen s ∨ Chosen s) (h : runCalls s calls = some s2) :
    Unchosen s2 ∨ Chosen s2 := by
  induction calls generalizing s with
  | nil =>
    simp only [runCalls, Option.some.injEq] at h
    exact h ▸ hs
  | cons c rest ih =>
    obtain ⟨s1, h1, h2⟩ := runCalls_cons h
    have ha := stepOk_eq_some h1
    rcases hs with hu | hc
    · exact ih (unchosen_step hu ha) h2
    · exact ih (Or.inr (chosen_step hc ha).1) h2

/-- Successful calls keep a selected session's document well formed; so do successful calls one
of which is `ARTIFACT_SELECTED`, whatever the document they start from. -/
theorem runCalls_chosen {calls : List Call} {s s2 : State}
    (hs : Chosen s ∨ ∃ c ∈ calls, c.type = "ARTIFACT_SELECTED")
    (h : runCalls s calls = some s2) : Chosen s2 := by
  induction calls generalizing s with
  | nil =>
    simp only [runCalls, Option.some.injEq] at h
    rcases hs with hc | ⟨c, hc, _⟩
    · exact h ▸ hc
    · simp at hc
  | cons c rest ih =>
    obtain ⟨s1, h1, h2⟩ := runCalls_cons h
    have ha := stepOk_eq_some h1
    rcases hs with hc | ⟨c1, hmem, hty⟩
    · exact ih (Or.inl (chosen_step hc ha).1) h2
    · rcases List.mem_cons.mp hmem with heq | hrest
      · subst heq
        rw [hty] at ha
        exact ih (Or.inl (chosen_of_artifact_returned ha).1) h2
      · exact ih (Or.inr ⟨c1, hrest, hty⟩) h2

theorem chosen_timelineConsistent {s : State} (hc : Chosen s) : TimelineConsistent s := by
  obtain ⟨_, _, _, _, _, _, _, tok, _, h1, h2⟩ := hc
  exact ⟨tok, h1, h2⟩

/-! ## Properties of the state machine -/

/-- C1 (as stated, refuted): the document obtained from `defaultState()` by one successful
`FUTURE_SENT_MESSAGE_TO_PAST` has `timeline_open` "PR" while its path is empty, so that
`path[sequence_index]` is no element of the path. -/
theorem C1_counterexample_message_before_selection :
    ∃ s, runCalls defaultState
        [⟨"FUTURE_SENT_MESSAGE_TO_PAST", .obj [("message", .str "hi")], 1, 2⟩] = some s ∧
      s.path = [] ∧ s.timeline_open = some "PR" ∧ ¬ TimelineConsistent s := by
  refine ⟨_, rfl, rfl, rfl, ?_⟩
  rintro ⟨tok, h, _⟩
  simp [jsIndex, defaultState] at h

/-- C1 (amended): every document obtained from `defaultState()` by a finite sequence of successful
calls of `applyEvent`, one of which is `ARTIFACT_SELECTED`, has
`timeline_open == path[sequence_index]`, a token present in `path` at that index. -/
theorem C1_timeline_open_consistent_after_selection (calls : List Call) (s : State)
    (hrun : runCalls defaultState calls = some s)
    (hsel : ∃ c ∈ calls, c.type = "ARTIFACT_SELECTED") :
    TimelineConsistent s :=
  chosen_timelineConsistent (runCalls_chosen (Or.inr hsel) hrun)

/-- Witness of C1 (amended): select the watch, then advance once. -/
theorem C1_timeline_open_consistent_after_selection_witness :
    ∃ s, runCalls defaultState [⟨"ARTIFACT_SELECTED", .obj [("artifact", .str "watch")], 1, 1⟩,
        ⟨"PR_SET_NEXT_YEAR", .obj [], 2, 2⟩] = some s ∧ s.sequence_index = 1 ∧
      s.timeline_open = some "PA" ∧ TimelineConsistent s :=
  ⟨_, rfl, rfl, rfl, C1_timeline_open_consistent_after_selection
    [⟨"ARTIFACT_SELECTED", .obj [("artifact", .str "watch")], 1, 1⟩,
      ⟨"PR_SET_NEXT_YEAR", .obj [], 2, 2⟩] _ rfl
    ⟨⟨"ARTIFACT_SELECTED", .obj [("artifact", .str "watch")], 1, 1⟩, List.mem_cons_self _ _, rfl⟩⟩

/-- C2 (the failing input): on `defaultState()`, whose path is empty, `PR_SET_NEXT_YEAR` sets
`sequence_index` to `Math.min(0 + 1, 0 - 1) = -1`, below the 0 it had before, and leaves
`timeline_open` undefined. -/
theorem C2_next_year_on_default_state_decreases_index :
    ∃ s, applyEvent 1 1 defaultState "PR_SET_NEXT_YEAR" (.obj []) = .returned s ∧
      s.sequence_index = -1 ∧ s.sequence_index < defaultState.sequence_index ∧
      s.timeline_open = none :=
  ⟨_, rfl, rfl, by decide, rfl⟩

/-- C3: for every state document `s` and every artifact `a` among watch, compass and letter,
`applyEvent(s, ARTIFACT_SELECTED, payload)` with `payload.artifact = a` returns a document with that
artifact, the path of the table (7 tokens; for the watch PR, PA, PR, F, PR, PA, F), index 0 and
`timeline_open = path[0]`. -/
theorem C3_artifact_selected_resets (t0 t1 : Nat) (s : State) (payload : JVal) (a : String)
    (ha : IsArtifact a) (hp : getProp payload "artifact" = some (some (.str a))) :
    ∃ s1, applyEvent t0 t1 s "ARTIFACT_SELECTED" payload = .returned s1 ∧
      s1.artifact = some a ∧ s1.path = pathForArtifact a ∧ s1.path.length = 7 ∧
      (∀ tok ∈ s1.path, IsToken tok) ∧
      pathForArtifact "watch" = ["PR", "PA", "PR", "F", "PR", "PA", "F"] ∧
      s1.sequence_index = 0 ∧ s1.timeline_open = jsIndex s1.path 0 ∧
      TimelineConsistent s1 := by
  have hfirst := firstOrPR_pathForArtifact ha
  refine ⟨{ artifact := some a, path := pathForArtifact a, sequence_index := 0,
            timeline_open := some "PR", puzzles := s.puzzles,
            last_event := some { type := "ARTIFACT_SELECTED", payload := payload, ts := t0 } },
    ?_, rfl, rfl, pathForArtifact_length ha, pathForArtifact_tokens ha, rfl, rfl,
    hfirst.2.symm, ⟨"PR", hfirst.2, rfl⟩⟩
  unfold applyEvent
  simp only [if_true, hp, includedArtifact_of_isArtifact ha, hfirst.1]

/-- Witness of C3: the compass selected on a document that had progressed with the watch. -/
theorem C3_artifact_selected_resets_witness :
    ∃ s1, applyEvent 9 9
        { defaultState with artifact := some "watch", path := pathForArtifact "watch",
                            sequence_index := 4, timeline_open := some "PR" }
        "ARTIFACT_SELECTED" (.obj [("artifact", .str "compass")]) = .returned s1 ∧
      s1.artifact = some "compass" ∧ s1.path = pathForArtifact "compass" ∧ s1.path.length = 7 ∧
      (∀ tok ∈ s1.path, IsToken tok) ∧
      pathForArtifact "watch" = ["PR", "PA", "PR", "F", "PR", "PA", "F"] ∧
      s1.sequence_index = 0 ∧ s1.timeline_open = jsIndex s1.path 0 ∧
      TimelineConsistent s1 :=
  C3_artifact_selected_resets 9 9 _ (.obj [("artifact", .str "compass")]) "compass"
    (Or.inr (Or.inl rfl)) rfl

/-- C6: on every document reached from `defaultState()` by successful calls of `applyEvent` whose
`sequence_index` is `path.length - 1`, `PR_SET_NEXT_YEAR` returns the document with only
`last_event` replaced. -/
theorem C6_next_year_at_end_changes_only_last_event (calls : List Call) (s : State)
    (hrun : runCalls defaultState calls = some s)
    (hend : s.sequence_index = (s.path.length : Int) - 1)
    (t0 t1 : Nat) (payload : JVal) :
    applyEvent t0 t1 s "PR_SET_NEXT_YEAR" payload = .returned { s with
      last_event := some { type := "PR_SET_NEXT_YEAR", payload := payload, ts := t0 } } := by
  have hmin : min (s.sequence_index + 1) ((s.path.length : Int) - 1) = s.sequence_index := by
    rw [hend]; exact min_eq_right (by omega)
  have hopen : jsIndex s.path s.sequence_index = s.timeline_open := by
    rcases runCalls_shape (Or.inl defaultState_unchosen) hrun with hu | hc
    · obtain ⟨hp, hs⟩ := hu
      rcases hs with ⟨h, _⟩ | ⟨h, ho⟩
      · rw [hp, h] at hend
        simp at hend
      · rw [hp, h, ho]
        rfl
    · obtain ⟨tok, h1, h2⟩ := chosen_timelineConsistent hc
      rw [h1, h2]
  unfold applyEvent
  simp only [show ¬ ("PR_SET_NEXT_YEAR" = "ARTIFACT_SELECTED") by decide, if_false, if_true,
    hmin, hopen]

/-- Witness of C6: the watch selected and six advances reach the end of the path; a seventh
`PR_SET_NEXT_YEAR` changes `last_event` only. -/
theorem C6_next_year_at_end_changes_only_last_event_witness :
    ∃ s, runCalls defaultState [⟨"ARTIFACT_SELECTED", .obj [("artifact", .str "watch")], 1, 1⟩,
        ⟨"PR_SET_NEXT_YEAR", .obj [], 2, 2⟩, ⟨"PA_ANSWER_CORRECT", .obj [], 3, 3⟩,
        ⟨"PR_SET_NEXT_YEAR", .obj [], 4, 4⟩, ⟨"PR_SET_NEXT_YEAR", .obj [], 5, 5⟩,
        ⟨"PR_SET_NEXT_YEAR", .obj [], 6, 6⟩, ⟨"PA_ANSWER_CORRECT", .obj [], 7, 7⟩] = some s ∧
      s.sequence_index = 6 ∧
      applyEvent 8 8 s "PR_SET_NEXT_YEAR" (.obj []) = .returned { s with
        last_event := some { type := "PR_SET_NEXT_YEAR", payload := .obj [], ts := 8 } } :=
  ⟨_, rfl, rfl, C6_next_year_at_end_changes_only_last_event
    [⟨"ARTIFACT_SELECTED", .obj [("artifact", .str "watch")], 1, 1⟩,
        ⟨"PR_SET_NEXT_YEAR", .obj [], 2, 2⟩, ⟨"PA_ANSWER_CORRECT", .obj [], 3, 3⟩,
        ⟨"PR_SET_NEXT_YEAR", .obj [], 4, 4⟩, ⟨"PR_SET_NEXT_YEAR", .obj [], 5, 5⟩,
        ⟨"PR_SET_NEXT_YEAR", .obj [], 6, 6⟩, ⟨"PA_ANSWER_CORRECT", .obj [], 7, 7⟩] _ rfl
    (by decide) 8 8 (.obj [])⟩

/-- C7 (as stated, refuted): a payload that carries the message string "" (the empty string) gets
an inbox entry whose message is the placeholder, not the payload message. -/
theorem C7_counterexample_empty_message :
    ∃ s1, applyEvent 1 2 defaultState "FUTURE_SENT_MESSAGE_TO_PAST"
        (.obj [("message", .str "")]) = .returned s1 ∧
      s1.puzzles.pa.inbox = [{ id := "msg_2", message := .str "Message from the future…" }] ∧
      ¬ (s1.puzzles.pa.inbox = [{ id := "msg_2", message := .str "" }]) := by
  refine ⟨_, rfl, rfl, ?_⟩
  intro h
  have h2 : JVal.str "Message from the future…" = JVal.str "" := by
    injection (List.cons.inj h).1
  injection h2 with h3
  exact absurd h3 (by decide)

/-- C7 (amended): for every state document and every payload other than `null`,
`FUTURE_SENT_MESSAGE_TO_PAST` returns a document whose inbox is the former inbox followed by
exactly one entry, with `sequence_index` unchanged; the message of the entry is the payload message
when that is truthy (so for every non-empty string), and the placeholder when the message is
absent or falsy (the empty string, 0, false, null). -/
theorem C7_future_message_appended (t0 t1 : Nat) (s : State) (payload : JVal)
    (hp : payload ≠ JVal.null) :
    ∃ s1 entry m, applyEvent t0 t1 s "FUTURE_SENT_MESSAGE_TO_PAST" payload = .returned s1 ∧
      getProp payload "message" = some m ∧
      s1.puzzles.pa.inbox = s.puzzles.pa.inbox ++ [entry] ∧
      s1.sequence_index = s.sequence_index ∧
      entry.id = "msg_" ++ toString t1 ∧
      (∀ v, m = some v → truthy v = true → entry.message = v) ∧
      (∀ x, m = some (.str x) → x ≠ "" → entry.message = .str x) ∧
      (m = none → entry.message = .str "Message from the future…") ∧
      (∀ v, m = some v → truthy v = false → entry.message = .str "Message from the future…") := by
  have hm : ∃ m, getProp payload "message" = some m := by
    cases payload with
    | null => exact absurd rfl hp
    | obj kvs => exact ⟨_, rfl⟩
    | bool b => exact ⟨_, rfl⟩
    | num n => exact ⟨_, rfl⟩
    | str x => exact ⟨_, rfl⟩
    | arr xs => exact ⟨_, rfl⟩
  obtain ⟨m, hm⟩ := hm
  refine ⟨{ s with
      puzzles := { s.puzzles with
        pa := { s.puzzles.pa with
          inbox := s.puzzles.pa.inbox ++
            [{ id := "msg_" ++ toString t1, message := messageOrPlaceholder m }] } },
      last_event := some { type := "FUTURE_SENT_MESSAGE_TO_PAST", payload := payload, ts := t0 } },
    { id := "msg_" ++ toString t1, message := messageOrPlaceholder m }, m, ?_, hm, rfl,
    rfl, rfl, ?_, ?_, ?_, ?_⟩
  · unfold applyEvent
    simp only [show ¬ ("FUTURE_SENT_MESSAGE_TO_PAST" = "ARTIFACT_SELECTED") by decide,
      show ¬ ("FUTURE_SENT_MESSAGE_TO_PAST" = "PR_SET_NEXT_YEAR") by decide,
      show ¬ ("FUTURE_SENT_MESSAGE_TO_PAST" = "PA_ANSWER_CORRECT") by decide,
      if_false, if_true, hm]
  · intro v hv ht
    subst hv
    simp [messageOrPlaceholder, ht]
  · intro x hx hne
    subst hx
    simp [messageOrPlaceholder, truthy, hne]
  · intro hn
    subst hn
    rfl
  · intro v hv ht
    subst hv
    simp [messageOrPlaceholder, ht]

/-- Witness of C7 (amended): the message "hi" sent to a default document. -/
theorem C7_future_message_appended_witness :
    ∃ s1 entry m, applyEvent 1 2 defaultState "FUTURE_SENT_MESSAGE_TO_PAST"
        (.obj [("message", .str "hi")]) = .returned s1 ∧
      getProp (.obj [("message", .str "hi")]) "message" = some m ∧
      s1.puzzles.pa.inbox = defaultState.puzzles.pa.inbox ++ [entry] ∧
      s1.sequence_index = defaultState.sequence_index ∧
      entry.id = "msg_" ++ toString 2 ∧
      (∀ v, m = some v → truthy v = true → entry.message = v) ∧
      (∀ x, m = some (.str x) → x ≠ "" → entry.message = .str x) ∧
      (m = none → entry.message = .str "Message from the future…") ∧
      (∀ v, m = some v → truthy v = false → entry.message = .str "Message from the future…") :=
  C7_future_message_appended 1 2 defaultState (.obj [("message", .str "hi")])
    (fun h => JVal.noConfusion h)

/-- C8 (as stated, refuted): an unknown event kind applied to `defaultState()` returns a document
whose `last_event` is the event, not the `null` it was. -/
theorem C8_counterexample_unknown_kind_sets_last_event :
    ∃ s1, applyEvent 5 5 defaultState "NO_SUCH_EVENT" (.obj []) = .returned s1 ∧
      defaultState.last_event = none ∧ s1.last_event ≠ none ∧ s1 ≠ defaultState := by
  refine ⟨_, rfl, rfl, ?_, ?_⟩
  · intro h
    exact Option.noConfusion h
  · intro h
    have h2 := congrArg State.last_event h
    exact Option.noConfusion h2

/-- C8 (amended): for every state document, every event kind `applyEvent` has no case for and every
payload, `applyEvent` does not throw and returns the document with `last_event` replaced by the
event and every other field unchanged. -/
theorem C8_unknown_kind_changes_only_last_event (t0 t1 : Nat) (s : State) (type : String)
    (payload : JVal) (hk : ¬ IsDeclaredKind type) :
    applyEvent t0 t1 s type payload = .returned { s with
      last_event := some { type := type, payload := payload, ts := t0 } } := by
  unfold IsDeclaredKind at hk
  simp only [not_or] at hk
  obtain ⟨h1, h2, h3, h4, h5⟩ := hk
  unfold applyEvent
  simp only [if_neg h1, if_neg h2, if_neg h3, if_neg h4, if_neg h5]

/-- Witness of C8 (amended): the kind NO_SUCH_EVENT on the default document. -/
theorem C8_unknown_kind_changes_only_last_event_witness :
    applyEvent 5 6 defaultState "NO_SUCH_EVENT" (.obj []) = .returned { defaultState with
      last_event := some { type := "NO_SUCH_EVENT", payload := .obj [], ts := 5 } } :=
  C8_unknown_kind_changes_only_last_event 5 6 defaultState "NO_SUCH_EVENT" (.obj [])
    (by unfold IsDeclaredKind; decide)

/-- C10: once a valid `ARTIFACT_SELECTED` has been applied (to any document), every document
reached by further successful calls of `applyEvent` has the path of its artifact, of length 7,
`0 <= sequence_index <= 6` and `timeline_open == path[sequence_index]`, a token; and a further
successful call lowers `sequence_index` only if it is a valid `ARTIFACT_SELECTED`, which sets it
to 0. -/
theorem C10_invariant_after_selection (t0 t1 : Nat) (s0 s1 : State) (payload : JVal)
    (hsel : applyEvent t0 t1 s0 "ARTIFACT_SELECTED" payload = .returned s1)
    (calls : List Call) (s2 : State) (hrun : runCalls s1 calls = some s2) :
    (∃ a, IsArtifact a ∧ s2.artifact = some a ∧ s2.path = pathForArtifact a) ∧
      s2.path.length = 7 ∧ 0 ≤ s2.sequence_index ∧ s2.sequence_index ≤ 6 ∧
      (∃ tok, IsToken tok ∧ jsIndex s2.path s2.sequence_index = some tok ∧
        s2.timeline_open = some tok) ∧
      ∀ c s3, stepOk s2 c = some s3 → s3.sequence_index < s2.sequence_index →
        c.type = "ARTIFACT_SELECTED" ∧ s3.sequence_index = 0 ∧
          ∃ a, IsArtifact a ∧ getProp c.payload "artifact" = some (some (.str a)) := by
  have hc2 : Chosen s2 := runCalls_chosen (Or.inl (chosen_of_artifact_returned hsel).1) hrun
  obtain ⟨a, ha, hart, hpath, hlen, h0, h6, htok⟩ := id hc2
  refine ⟨⟨a, ha, hart, hpath⟩, hlen, h0, h6, htok, ?_⟩
  intro c s3 hstep hlt
  have happ := stepOk_eq_some hstep
  obtain ⟨hty, hz⟩ := (chosen_step hc2 happ).2 hlt
  rw [hty] at happ
  obtain ⟨a1, ha1, hg, _⟩ := applyEvent_artifact_returned happ
  exact ⟨hty, hz, a1, ha1, hg⟩

/-- Witness of C10: the watch selected on the default document, then an advance, a message and a
correct answer. -/
theorem C10_invariant_after_selection_witness :
    ∃ s1 s2, applyEvent 1 1 defaultState "ARTIFACT_SELECTED"
        (.obj [("artifact", .str "watch")]) = .returned s1 ∧
      runCalls s1 [⟨"PR_SET_NEXT_YEAR", .obj [], 2, 2⟩,
        ⟨"FUTURE_SENT_MESSAGE_TO_PAST", .obj [("message", .str "hi")], 3, 4⟩,
        ⟨"PA_ANSWER_CORRECT", .obj [], 5, 5⟩] = some s2 ∧
      s2.sequence_index = 2 ∧
      ((∃ a, IsArtifact a ∧ s2.artifact = some a ∧ s2.path = pathForArtifact a) ∧
        s2.path.length = 7 ∧ 0 ≤ s2.sequence_index ∧ s2.sequence_index ≤ 6 ∧
        (∃ tok, IsToken tok ∧ jsIndex s2.path s2.sequence_index = some tok ∧
          s2.timeline_open = some tok) ∧
        ∀ c s3, stepOk s2 c = some s3 → s3.sequence_index < s2.sequence_index →
          c.type = "ARTIFACT_SELECTED" ∧ s3.sequence_index = 0 ∧
            ∃ a, IsArtifact a ∧ getProp c.payload "artifact" = some (some (.str a))) :=
  ⟨_, _, rfl, rfl, rfl,
    C10_invariant_after_selection 1 1 defaultState _ (.obj [("artifact", .str "watch")]) rfl
      [⟨"PR_SET_NEXT_YEAR", .obj [], 2, 2⟩,
        ⟨"FUTURE_SENT_MESSAGE_TO_PAST", .obj [("message", .str "hi")], 3, 4⟩,
        ⟨"PA_ANSWER_CORRECT", .obj [], 5, 5⟩] _ rfl⟩

/-! ## Properties of the event handler -/

theorem getProp_orEmptyObject_ne_none (p : Option JVal) (key : String) :
    ∃ m, getProp (orEmptyObject p) key = some m := by
  cases p with
  | none => exact ⟨_, rfl⟩
  | some v =>
    cases v with
    | null => exact ⟨_, rfl⟩
    | bool b => cases b <;> exact ⟨_, rfl⟩
    | num n =>
      by_cases hn : n = 0
      · subst hn; exact ⟨_, rfl⟩
      · refine ⟨none, ?_⟩
        simp [orEmptyObject, truthy, hn, getProp]
    | str x =>
      by_cases hx : x = ""
      · subst hx; exact ⟨_, rfl⟩
      · refine ⟨none, ?_⟩
        simp [orEmptyObject, truthy, hx, getProp]
    | arr xs => exact ⟨_, rfl⟩
    | obj kvs => exact ⟨_, rfl⟩

/-- `applyEvent` on an `ARTIFACT_SELECTED` whose artifact is not listed: it throws after it has
replaced `last_event`. -/
theorem applyEvent_invalid_artifact (t0 t1 : Nat) (s : State) (payload : JVal)
    (m : Option JVal) (hm : getProp payload "artifact" = some m)
    (hbad : ∀ a, m = some (.str a) → ¬ IsArtifact a) :
    applyEvent t0 t1 s "ARTIFACT_SELECTED" payload = .threw "Invalid artifact" { s with
      last_event := some { type := "ARTIFACT_SELECTED", payload := payload, ts := t0 } } := by
  have hnone : includedArtifact m = none := by
    cases h : includedArtifact m with
    | none => rfl
    | some a =>
      obtain ⟨ha, hv⟩ := includedArtifact_isArtifact h
      exact absurd ha (hbad a hv)
  unfold applyEvent
  simp only [if_true, hm, hnone]

/-- C4 (as stated, refuted): session S1 holds the default document; `ARTIFACT_SELECTED` with the
artifact "sword" is answered with status 400, but the event log has gained an entry, and the
document handed to `applyEvent` has had its `last_event` replaced. -/
theorem C4_counterexample_rejected_event_is_logged :
    ∃ w1 s1,
      postSessionEvent
          { sessions := [{ id := "S1", state_json := defaultState, updated_at := 0 }],
            events := [], rooms := [("S1", [7])], openSockets := [7], sent := [],
            actuatorCalls := 0 }
          { log := 1, apply0 := 2, apply1 := 3, save := 4 } "S1"
          { type := some "ARTIFACT_SELECTED",
            payload := some (.obj [("artifact", .str "sword")]) }
        = (.error 400 "Invalid artifact", w1) ∧
      w1.events.length = 1 ∧
      applyEvent 2 3 defaultState "ARTIFACT_SELECTED" (.obj [("artifact", .str "sword")])
        = .threw "Invalid artifact" s1 ∧
      defaultState.last_event = none ∧ s1.last_event ≠ none :=
  ⟨_, _, rfl, rfl, rfl, rfl, fun h => Option.noConfusion h⟩

/-- C4 (amended): for every existing session and every payload whose artifact is not watch,
compass or letter, `ARTIFACT_SELECTED` is answered with status 400 and the message
"Invalid artifact"; the stored snapshots and the frames sent are unchanged and the actuator is not
called, while the event log has gained exactly one entry, that of the rejected event, and
`applyEvent` has replaced `last_event` (and nothing else) in the copy it was handed. -/
theorem C4_invalid_artifact_rejected_after_logging (w : World) (c : Ticks) (sessionId : String)
    (body : Body) (state : State) (hs : getState w sessionId = some state)
    (hty : body.type = some "ARTIFACT_SELECTED")
    (hbad : ∀ a, getProp (orEmptyObject body.payload) "artifact" = some (some (.str a)) →
      ¬ IsArtifact a) :
    postSessionEvent w c sessionId body =
        (.error 400 "Invalid artifact",
          { w with events := w.events ++
              [⟨sessionId, "ARTIFACT_SELECTED", orEmptyObject body.payload, c.log⟩] }) ∧
      (postSessionEvent w c sessionId body).2.sessions = w.sessions ∧
      getState (postSessionEvent w c sessionId body).2 sessionId = some state ∧
      (postSessionEvent w c sessionId body).2.sent = w.sent ∧
      (postSessionEvent w c sessionId body).2.rooms = w.rooms ∧
      (postSessionEvent w c sessionId body).2.actuatorCalls = w.actuatorCalls ∧
      applyEvent c.apply0 c.apply1 state "ARTIFACT_SELECTED" (orEmptyObject body.payload) =
        .threw "Invalid artifact" { state with
          last_event := some ⟨"ARTIFACT_SELECTED", orEmptyObject body.payload, c.apply0⟩ } := by
  obtain ⟨m, hm⟩ := getProp_orEmptyObject_ne_none body.payload "artifact"
  have hthrow := applyEvent_invalid_artifact c.apply0 c.apply1 state
    (orEmptyObject body.payload) m hm (fun a ha => hbad a (by rw [hm, ha]))
  have hpost : postSessionEvent w c sessionId body =
      (.error 400 "Invalid artifact",
        { w with events := w.events ++
            [⟨sessionId, "ARTIFACT_SELECTED", orEmptyObject body.payload, c.log⟩] }) := by
    unfold postSessionEvent
    simp only [hs, hty, show ¬ ("ARTIFACT_SELECTED" = "") by decide, if_false, hthrow]
    rfl
  refine ⟨hpost, ?_, ?_, ?_, ?_, ?_, hthrow⟩
  · rw [hpost]
  · rw [hpost]; exact hs
  · rw [hpost]
  · rw [hpost]
  · rw [hpost]

/-- Witness of C4 (amended): the artifact "sword" submitted to session S1. -/
theorem C4_invalid_artifact_rejected_after_logging_witness :
    (postSessionEvent
        { sessions := [{ id := "S1", state_json := defaultState, updated_at := 0 }],
          events := [], rooms := [("S1", [7])], openSockets := [7], sent := [],
          actuatorCalls := 0 }
        { log := 1, apply0 := 2, apply1 := 3, save := 4 } "S1"
        { type := some "ARTIFACT_SELECTED",
          payload := some (.obj [("artifact", .str "sword")]) }).2.sessions =
      [{ id := "S1", state_json := defaultState, updated_at := 0 }] :=
  (C4_invalid_artifact_rejected_after_logging
    { sessions := [{ id := "S1", state_json := defaultState, updated_at := 0 }],
      events := [], rooms := [("S1", [7])], openSockets := [7], sent := [],
      actuatorCalls := 0 }
    { log := 1, apply0 := 2, apply1 := 3, save := 4 } "S1"
    { type := some "ARTIFACT_SELECTED", payload := some (.obj [("artifact", .str "sword")]) }
    defaultState rfl rfl
    (by
      intro a ha
      have h2 : JVal.str "sword" = JVal.str a := by
        injection (Option.some.inj ha)
      injection h2 with h3
      subst h3
      unfold IsArtifact
      decide)).2.1

/-- C5: a submission for a session id without snapshot is answered with status 404, and one for an
existing session without event kind (absent, or the empty string) with status 400; in both cases
the handler leaves everything as it was: no row is added to the event log, no snapshot is saved
and no frame is sent. -/
theorem C5_not_found_and_missing_kind_write_nothing (w : World) (c : Ticks) (sessionId : String)
    (body : Body) :
    (getState w sessionId = none →
        postSessionEvent w c sessionId body = (.error 404 "Session not found", w)) ∧
      (getState w sessionId ≠ none → (body.type = none ∨ body.type = some "") →
        postSessionEvent w c sessionId body = (.error 400 "Missing type", w) ∧
        (postSessionEvent w c sessionId body).2.events = w.events ∧
        (postSessionEvent w c sessionId body).2.sessions = w.sessions ∧
        (postSessionEvent w c sessionId body).2.sent = w.sent) := by
  constructor
  · intro hnone
    unfold postSessionEvent
    simp only [hnone]
  · intro hsome hty
    have hpost : postSessionEvent w c sessionId body = (.error 400 "Missing type", w) := by
      cases hg : getState w sessionId with
      | none => exact absurd hg hsome
      | some state =>
        unfold postSessionEvent
        rcases hty with h | h
        · simp only [hg, h]
        · simp only [hg, h, if_true]
    exact ⟨hpost, by rw [hpost], by rw [hpost], by rw [hpost]⟩

/-- Witness of C5: session S1 exists and S2 does not; both rejections at a body without kind. -/
theorem C5_not_found_and_missing_kind_write_nothing_witness :
    postSessionEvent
        { sessions := [{ id := "S1", state_json := defaultState, updated_at := 0 }],
          events := [], rooms := [("S1", [7])], openSockets := [7], sent := [],
          actuatorCalls := 0 }
        { log := 1, apply0 := 2, apply1 := 3, save := 4 } "S2"
        { type := none, payload := none } =
      (.error 404 "Session not found",
        { sessions := [{ id := "S1", state_json := defaultState, updated_at := 0 }],
          events := [], rooms := [("S1", [7])], openSockets := [7], sent := [],
          actuatorCalls := 0 }) ∧
    postSessionEvent
        { sessions := [{ id := "S1", state_json := defaultState, updated_at := 0 }],
          events := [], rooms := [("S1", [7])], openSockets := [7], sent := [],
          actuatorCalls := 0 }
        { log := 1, apply0 := 2, apply1 := 3, save := 4 } "S1"
        { type := none, payload := none } =
      (.error 400 "Missing type",
        { sessions := [{ id := "S1", state_json := defaultState, updated_at := 0 }],
          events := [], rooms := [("S1", [7])], openSockets := [7], sent := [],
          actuatorCalls := 0 }) :=
  ⟨(C5_not_found_and_missing_kind_write_nothing _ _ "S2" _).1 rfl,
    ((C5_not_found_and_missing_kind_write_nothing _ _ "S1" _).2
      (fun h => Option.noConfusion h) (Or.inl rfl)).1⟩

/-! ## The room registry -/

theorem roomsGet_append_single (s k : String) (v : List Nat) (r : Rooms) :
    roomsGet s (r ++ [(k, v)]) =
      match roomsGet s r with
      | some x => some x
      | none => if k = s then some v else none := by
  induction r with
  | nil => simp [roomsGet]
  | cons e rest ih =>
    obtain ⟨k1, v1⟩ := e
    by_cases h : k1 = s
    · simp [roomsGet, h]
    · simp [roomsGet, h, ih]

theorem roomsGet_cons (s k1 : String) (v1 : List Nat) (rest : Rooms) :
    roomsGet s ((k1, v1) :: rest) = if k1 = s then some v1 else roomsGet s rest :=
  rfl

theorem roomsUpdate_cons (k k1 : String) (v1 : List Nat) (f : List Nat → List Nat)
    (rest : Rooms) :
    roomsUpdate k f ((k1, v1) :: rest) =
      (if k1 = k then (k1, f v1) else (k1, v1)) :: roomsUpdate k f rest :=
  rfl

theorem roomsDelete_cons (k k1 : String) (v1 : List Nat) (rest : Rooms) :
    roomsDelete k ((k1, v1) :: rest) =
      if k1 = k then roomsDelete k rest else (k1, v1) :: roomsDelete k rest := by
  unfold roomsDelete
  by_cases h : k1 = k
  · simp [List.filter_cons, h]
  · simp [List.filter_cons, h]

theorem roomsGet_update (s k : String) (f : List Nat → List Nat) (r : Rooms) :
    roomsGet s (roomsUpdate k f r) =
      if k = s then (roomsGet s r).map f else roomsGet s r := by
  induction r with
  | nil =>
    show roomsGet s [] = _
    simp [roomsGet]
  | cons e rest ih =>
    obtain ⟨k1, v1⟩ := e
    rw [roomsUpdate_cons]
    by_cases h1 : k1 = k
    · rw [if_pos h1, roomsGet_cons, roomsGet_cons, ih]
      subst h1
      by_cases hk : k1 = s
      · simp [hk]
      · simp [hk]
    · rw [if_neg h1, roomsGet_cons, roomsGet_cons, ih]
      by_cases h2 : k1 = s
      · have hks : ¬ k = s := fun h => h1 (h2.trans h.symm)
        simp [h2, hks]
      · simp [h2]

theorem roomsGet_delete (s k : String) (r : Rooms) :
    roomsGet s (roomsDelete k r) = if k = s then none else roomsGet s r := by
  induction r with
  | nil =>
    show roomsGet s [] = _
    simp [roomsGet]
  | cons e rest ih =>
    obtain ⟨k1, v1⟩ := e
    rw [roomsDelete_cons]
    by_cases h1 : k1 = k
    · rw [if_pos h1, ih, roomsGet_cons]
      subst h1
      by_cases hk : k1 = s
      · simp [hk]
      · simp [hk]
    · rw [if_neg h1, roomsGet_cons, roomsGet_cons, ih]
      by_cases h2 : k1 = s
      · have hks : ¬ k = s := fun h => h1 (h2.trans h.symm)
        simp [h2, hks]
      · simp [h2]

theorem mem_setAdd (h ws : Nat) (set : List Nat) : h ∈ setAdd ws set ↔ h = ws ∨ h ∈ set := by
  unfold setAdd
  by_cases hm : ws ∈ set
  · simp only [if_pos hm]
    constructor
    · exact Or.inr
    · rintro (rfl | h1)
      · exact hm
      · exact h1
  · simp only [if_neg hm, List.mem_append, List.mem_singleton]
    tauto

theorem mem_setDelete (h ws : Nat) (set : List Nat) :
    h ∈ setDelete ws set ↔ h ∈ set ∧ h ≠ ws := by
  simp [setDelete]

/-- The rooms after a connection that carries a non-empty session id. -/
theorem onConnection_rooms (w : World) (t ws : Nat) (sid : String) (device : Option String)
    (hsid : sid ≠ "") (s : String) :
    roomsGet s (onConnection w t ws (some sid) device).rooms =
      if sid = s then some (setAdd ws ((roomsGet sid w.rooms).getD [])) else roomsGet s w.rooms := by
  have hrooms : (onConnection w t ws (some sid) device).rooms =
      roomsUpdate sid (setAdd ws)
        (if roomsHas sid w.rooms then w.rooms else roomsSetEmpty sid w.rooms) := by
    unfold onConnection
    simp only [if_neg hsid]
    split <;> rfl
  rw [hrooms, roomsGet_update]
  by_cases hs : sid = s
  · subst hs
    simp only [if_true]
    cases hg : roomsGet sid w.rooms with
    | none =>
      simp [roomsHas, hg, roomsSetEmpty, roomsGet_append_single]
    | some set =>
      simp [roomsHas, hg]
  · simp only [if_neg hs]
    by_cases hh : roomsHas sid w.rooms = true
    · simp [hh]
    · simp only [hh]
      simp only [roomsSetEmpty, roomsGet_append_single, if_neg hs, Bool.false_eq_true, if_false]
      cases roomsGet s w.rooms <;> rfl

/-- The rooms after the close listener of socket `ws` for session `sid` has run. -/
theorem onClose_rooms (w : World) (ws : Nat) (sid : String) (s : String) :
    roomsGet s (onClose w ws sid).rooms =
      if sid = s then
        match roomsGet sid w.rooms with
        | none => none
        | some set => if setDelete ws set = [] then none else some (setDelete ws set)
      else roomsGet s w.rooms := by
  unfold onClose
  cases hg : roomsGet sid w.rooms with
  | none =>
    by_cases hs : sid = s
    · subst hs; simp [hg]
    · simp [hs]
  | some set =>
    simp only
    by_cases he : setDelete ws set = []
    · simp only [he, List.length_nil, if_true, roomsGet_delete]
      by_cases hs : sid = s
      · simp [hs]
      · simp [hs, roomsGet_update]
    · have hlen : ¬ ((setDelete ws set).length = 0) := by
        simpa [List.length_eq_zero] using he
      simp only [if_neg hlen, if_neg he, roomsGet_update]
      by_cases hs : sid = s
      · subst hs; simp [hg]
      · simp [hs]

/-- The subscribed handles after one more operation. -/
theorem subscribed_snoc (ops : List Op) (op : Op) (sid : String) (h : Nat) :
    SubscribedNotYetUnsubscribed (ops ++ [op]) sid h ↔
      (∃ t device, op = Op.connection t h (some sid) device) ∨
        (SubscribedNotYetUnsubscribed ops sid h ∧ op ≠ Op.close h sid) := by
  constructor
  · rintro ⟨pre, post, t, device, heq, hno⟩
    rcases List.eq_nil_or_concat post with hp | ⟨post1, x, hp⟩
    · subst hp
      have h2 : ops ++ [op] = pre ++ [Op.connection t h (some sid) device] := heq
      obtain ⟨_, h3⟩ := List.append_inj' h2 rfl
      exact Or.inl ⟨t, device, (List.cons.inj h3).1⟩
    · rw [List.concat_eq_append] at hp
      subst hp
      have h2 : ops ++ [op] = (pre ++ Op.connection t h (some sid) device :: post1) ++ [x] := by
        rw [heq]; simp
      obtain ⟨h3, h4⟩ := List.append_inj' h2 rfl
      have hx : op = x := (List.cons.inj h4).1
      refine Or.inr ⟨⟨pre, post1, t, device, h3, ?_⟩, ?_⟩
      · intro hm
        exact hno (List.mem_append_left _ hm)
      · intro hc
        apply hno
        rw [← hx, hc]
        simp
  · rintro (⟨t, device, hop⟩ | ⟨⟨pre, post, t, device, heq, hno⟩, hne⟩)
    · exact ⟨ops, [], t, device, by rw [hop], by simp⟩
    · refine ⟨pre, post ++ [op], t, device, by rw [heq]; simp, ?_⟩
      intro hm
      rcases List.mem_append.mp hm with h1 | h1
      · exact hno h1
      · exact hne (List.mem_singleton.mp h1).symm

theorem runOps_snoc (w : World) (ops : List Op) (op : Op) :
    runOps w (ops ++ [op]) = stepOp (runOps w ops) op := by
  simp [runOps, List.foldl_append]

theorem setAdd_ne_nil (ws : Nat) (set : List Nat) : setAdd ws set ≠ [] := by
  intro h
  have hm : ws ∈ setAdd ws set := (mem_setAdd ws ws set).mpr (Or.inl rfl)
  rw [h] at hm
  simp at hm

/-- The registry invariant: no session is mapped to the empty set, and the set of a session holds
exactly the handles subscribed and not yet unsubscribed. -/
theorem runOps_rooms (w0 : World) (h0 : w0.rooms = []) (ops : List Op) :
    (∀ sid, roomsGet sid (runOps w0 ops).rooms ≠ some []) ∧
      ∀ sid h, InRoom (runOps w0 ops).rooms sid h ↔
        (sid ≠ "" ∧ SubscribedNotYetUnsubscribed ops sid h) := by
  induction ops using List.reverseRecOn with
  | nil =>
    refine ⟨?_, ?_⟩
    · intro sid
      show roomsGet sid w0.rooms ≠ some []
      rw [h0]
      simp [roomsGet]
    · intro sid h
      constructor
      · rintro ⟨set, hg, _⟩
        have hg2 : roomsGet sid w0.rooms = some set := hg
        rw [h0] at hg2
        simp [roomsGet] at hg2
      · rintro ⟨_, pre, post, t, device, heq, _⟩
        simp at heq
  | append_singleton ops op ih =>
    obtain ⟨ih1, ih2⟩ := ih
    rw [runOps_snoc]
    cases op with
    | connection t ws sessionId device =>
      have hskip : ∀ (w1 : World), w1.rooms = (runOps w0 ops).rooms →
          (∀ sid h, ¬ (sid ≠ "" ∧ ∃ t1 d1, Op.connection t ws sessionId device =
            Op.connection t1 h (some sid) d1)) →
          (∀ sid, roomsGet sid w1.rooms ≠ some []) ∧
            ∀ sid h, InRoom w1.rooms sid h ↔
              (sid ≠ "" ∧ SubscribedNotYetUnsubscribed
                (ops ++ [Op.connection t ws sessionId device]) sid h) := by
        intro w1 hw1 hno
        rw [hw1]
        refine ⟨ih1, ?_⟩
        intro sid h
        rw [ih2 sid h, subscribed_snoc]
        constructor
        · rintro ⟨hs, hsub⟩
          exact ⟨hs, Or.inr ⟨hsub, fun hc => Op.noConfusion hc⟩⟩
        · rintro ⟨hs, hc | ⟨hsub, _⟩⟩
          · exact absurd ⟨hs, hc⟩ (hno sid h)
          · exact ⟨hs, hsub⟩
      cases sessionId with
      | none =>
        apply hskip _ rfl
        rintro sid h ⟨_, t1, d1, hc⟩
        injection hc with _ _ h3 _
        exact Option.noConfusion h3
      | some sid0 =>
        by_cases hsid : sid0 = ""
        · apply hskip
          · show (onConnection (runOps w0 ops) t ws (some sid0) device).rooms = _
            unfold onConnection
            simp only [if_pos hsid]
          · rintro sid h ⟨hne, t1, d1, hc⟩
            injection hc with _ _ h3 _
            injection h3 with h4
            exact hne (h4 ▸ hsid)
        · have hget := onConnection_rooms (runOps w0 ops) t ws sid0 device hsid
          refine ⟨?_, ?_⟩
          · intro sid
            show roomsGet sid (onConnection (runOps w0 ops) t ws (some sid0) device).rooms ≠ _
            rw [hget]
            by_cases hs : sid0 = sid
            · rw [if_pos hs]
              intro hc
              exact setAdd_ne_nil _ _ (Option.some.inj hc)
            · rw [if_neg hs]
              exact ih1 sid
          · intro sid h
            show InRoom (onConnection (runOps w0 ops) t ws (some sid0) device).rooms sid h ↔ _
            unfold InRoom
            rw [hget, subscribed_snoc]
            by_cases hs : sid0 = sid
            · subst hs
              rw [if_pos rfl]
              constructor
              · rintro ⟨set, hset, hm⟩
                rw [← Option.some.inj hset, mem_setAdd] at hm
                refine ⟨hsid, ?_⟩
                rcases hm with hm | hm
                · exact Or.inl ⟨t, device, by rw [hm]⟩
                · refine Or.inr ⟨((ih2 sid0 h).mp ?_).2, fun hc => Op.noConfusion hc⟩
                  cases hg : roomsGet sid0 (runOps w0 ops).rooms with
                  | none => rw [hg] at hm; simp at hm
                  | some set0 =>
                    rw [hg] at hm
                    exact ⟨set0, hg, hm⟩
              · rintro ⟨_, hc | ⟨hsub, _⟩⟩
                · obtain ⟨t1, d1, hc⟩ := hc
                  injection hc with _ h2 _ _
                  exact ⟨_, rfl, (mem_setAdd _ _ _).mpr (Or.inl h2.symm)⟩
                · obtain ⟨set0, hg, hm⟩ := (ih2 sid0 h).mpr ⟨hsid, hsub⟩
                  refine ⟨_, rfl, (mem_setAdd _ _ _).mpr (Or.inr ?_)⟩
                  rw [hg]
                  exact hm
            · rw [if_neg hs]
              have := ih2 sid h
              unfold InRoom at this
              rw [this]
              constructor
              · rintro ⟨hne, hsub⟩
                exact ⟨hne, Or.inr ⟨hsub, fun hc => Op.noConfusion hc⟩⟩
              · rintro ⟨hne, hc | ⟨hsub, _⟩⟩
                · obtain ⟨t1, d1, hc⟩ := hc
                  injection hc with _ _ h3 _
                  exact absurd (Option.some.inj h3) hs
                · exact ⟨hne, hsub⟩
    | close ws sid0 =>
      have hget := onClose_rooms (runOps w0 ops) ws sid0
      refine ⟨?_, ?_⟩
      · intro sid
        show roomsGet sid (onClose (runOps w0 ops) ws sid0).rooms ≠ _
        rw [hget]
        by_cases hs : sid0 = sid
        · rw [if_pos hs]
          cases roomsGet sid0 (runOps w0 ops).rooms with
          | none => simp
          | some set =>
            by_cases he : setDelete ws set = []
            · simp [he]
            · simp [he]
        · rw [if_neg hs]
          exact ih1 sid
      · intro sid h
        show InRoom (onClose (runOps w0 ops) ws sid0).rooms sid h ↔ _
        have hprev := ih2 sid h
        unfold InRoom at hprev ⊢
        rw [hget, subscribed_snoc]
        by_cases hs : sid0 = sid
        · subst hs
          rw [if_pos rfl]
          constructor
          · rintro ⟨set1, hset, hm⟩
            cases hg : roomsGet sid0 (runOps w0 ops).rooms with
            | none => rw [hg] at hset; simp at hset
            | some set =>
              rw [hg] at hset
              by_cases he : setDelete ws set = []
              · simp [he] at hset
              · simp only [if_neg he, Option.some.injEq] at hset
                rw [← hset, mem_setDelete] at hm
                obtain ⟨hne, hsub⟩ := hprev.mp ⟨set, hg, hm.1⟩
                refine ⟨hne, Or.inr ⟨hsub, ?_⟩⟩
                intro hc
                injection hc with h1 _
                exact hm.2 h1.symm
          · rintro ⟨hne, hc | ⟨hsub, hnc⟩⟩
            · obtain ⟨t1, d1, hc⟩ := hc
              exact Op.noConfusion hc
            · obtain ⟨set, hg, hm⟩ := hprev.mpr ⟨hne, hsub⟩
              have hne2 : h ≠ ws := by
                intro hc
                exact hnc (by rw [hc])
              have hmem : h ∈ setDelete ws set := (mem_setDelete _ _ _).mpr ⟨hm, hne2⟩
              have he : setDelete ws set ≠ [] := by
                intro hc
                rw [hc] at hmem
                simp at hmem
              refine ⟨setDelete ws set, ?_, hmem⟩
              rw [hg]
              simp [he]
        · rw [if_neg hs, hprev]
          constructor
          · rintro ⟨hne, hsub⟩
            refine ⟨hne, Or.inr ⟨hsub, ?_⟩⟩
            intro hc
            injection hc with _ h2
            exact hs h2
          · rintro ⟨hne, hc | ⟨hsub, _⟩⟩
            · obtain ⟨t1, d1, hc⟩ := hc
              exact Op.noConfusion hc
            · exact ⟨hne, hsub⟩

/-- C9: starting from the empty registry, after every sequence of connections and close events
no session is mapped to an empty set, and the set of each session holds exactly the handles
subscribed (connected with that non-empty session id) and not yet unsubscribed; a close event
removes exactly its handle from the set of its session, removes the session entry when the set
becomes empty, and leaves the other sessions as they were. -/
theorem C9_room_registry_tracks_subscribers (w0 : World) (h0 : w0.rooms = []) (ops : List Op) :
    (∀ sid, roomsGet sid (runOps w0 ops).rooms ≠ some []) ∧
      (∀ sid h, InRoom (runOps w0 ops).rooms sid h ↔
        (sid ≠ "" ∧ SubscribedNotYetUnsubscribed ops sid h)) ∧
      ∀ ws sid set, roomsGet sid (runOps w0 ops).rooms = some set →
        roomsGet sid (onClose (runOps w0 ops) ws sid).rooms =
            (if setDelete ws set = [] then none else some (setDelete ws set)) ∧
          (∀ h, h ∈ setDelete ws set ↔ h ∈ set ∧ h ≠ ws) ∧
          ∀ s, s ≠ sid →
            roomsGet s (onClose (runOps w0 ops) ws sid).rooms = roomsGet s (runOps w0 ops).rooms := by
  obtain ⟨h1, h2⟩ := runOps_rooms w0 h0 ops
  refine ⟨h1, h2, ?_⟩
  intro ws sid set hg
  refine ⟨?_, fun h => mem_setDelete h ws set, ?_⟩
  · rw [onClose_rooms, if_pos rfl, hg]
  · intro s hs
    rw [onClose_rooms, if_neg (fun h => hs h.symm)]

/-- Witness of C9: sockets 7 and 8 join session S1, socket 9 joins S2, then 7 and 9 close: the
registry holds S1 with socket 8 only. -/
theorem C9_room_registry_tracks_subscribers_witness :
    (runOps { sessions := [], events := [], rooms := [], openSockets := [7, 8, 9], sent := [],
              actuatorCalls := 0 }
        [Op.connection 1 7 (some "S1") none, Op.connection 2 8 (some "S1") (some "past"),
          Op.connection 3 9 (some "S2") none, Op.close 7 "S1", Op.close 9 "S2"]).rooms =
        [("S1", [8])] ∧
      ∀ sid, roomsGet sid
        (runOps { sessions := [], events := [], rooms := [], openSockets := [7, 8, 9], sent := [],
                  actuatorCalls := 0 }
          [Op.connection 1 7 (some "S1") none, Op.connection 2 8 (some "S1") (some "past"),
            Op.connection 3 9 (some "S2") none, Op.close 7 "S1", Op.close 9 "S2"]).rooms ≠
          some [] :=
  ⟨by decide, (C9_room_registry_tracks_subscribers
    { sessions := [], events := [], rooms := [], openSockets := [7, 8, 9], sent := [],
      actuatorCalls := 0 } rfl
    [Op.connection 1 7 (some "S1") none, Op.connection 2 8 (some "S1") (some "past"),
      Op.connection 3 9 (some "S2") none, Op.close 7 "S1", Op.close 9 "S2"]).1⟩

end TemporalServer
